import Mathlib

/-!
Verification of the Smithers WebSocket relay (`src-tauri/src/ws_server.rs`
and `src-tauri/src/main.rs`).

The per-connection handler is embedded as a pure function from the
connection's environment (handshake outcome, send outcome, clock reading,
parser, publisher outcomes, and the list of received frames) to the ordered
list of observable events it produces: frames sent to the peer, dispatches
to the event publisher, and diagnostic log lines.  The JSON library
(`serde_json`) and the Tauri emitter are external collaborators, so the
parser and the publisher's success function are parameters of the model.
-/

/-- JSON-like structured values (`serde_json::Value`). Numbers are modelled
as integers, which covers every number appearing in the relay (the
millisecond timestamp). -/
inductive Json where
  | null : Json
  | bool (b : Bool) : Json
  | num (n : Int) : Json
  | str (s : String) : Json
  | arr (xs : List Json) : Json
  | obj (fields : List (String × Json)) : Json
deriving Repr

/-- `Value::get(key)` : field lookup, `None` on any non-object value. -/
def Json.get (j : Json) (key : String) : Option Json :=
  match j with
  | .obj fields => (fields.find? (fun p => p.1 == key)).map Prod.snd
  | _ => none

/-- `Value::as_str()` : `Some` exactly on JSON strings. -/
def Json.as_str : Json → Option String
  | .str s => some s
  | _ => none

/-- WebSocket frames the read loop can receive
(`tungstenite::Message`). -/
inductive Frame where
  | text (s : String) : Frame
  | binary (bytes : List Nat) : Frame
  | close : Frame
  | ping : Frame
  | pong : Frame
deriving Repr, DecidableEq

/-- Observable events of one connection handler, in program order. -/
inductive Event where
  | logHandshakeFailed : Event
  | logNewConnection : Event
  | sent (j : Json) : Event
  | logSendFailed : Event
  | emitted (topic : String) (payload : Json) : Event
  | logEmitFailed (topic : String) : Event
  | logParseFailed : Event
  | logClosedByPeer : Event
  | logWsError : Event
  | logConnectionEnded : Event
deriving Repr

/-- The dispatches (publisher invocations) among a list of events, with
their topic and payload, in order. -/
def emittedOf (es : List Event) : List (String × Json) :=
  es.filterMap fun e =>
    match e with
    | .emitted t j => some (t, j)
    | _ => none

/-- The frames sent to the peer among a list of events, in order. -/
def sentOf (es : List Event) : List Json :=
  es.filterMap fun e =>
    match e with
    | .sent j => some j
    | _ => none

/-- The handshake greeting built in `handle_connection`:
`json!({"type": "connected", "serverVersion": ..., "timestamp": ...})`. -/
def connected_msg (version : String) (now : Int) : Json :=
  .obj [("type", .str "connected"),
        ("serverVersion", .str version),
        ("timestamp", .num now)]

/-- Processing of one text frame in the read loop of `handle_connection`:
parse the payload, extract the `type` field as a string, and on success
emit to `"ws:" ++ type` and then to the catch-all `"ws:message"`, logging
each failed emit. -/
def handleText (parse : String → Option Json) (emitOk : String → Json → Bool)
    (text : String) : List Event :=
  match parse text with
  | some json =>
    match (json.get "type").bind Json.as_str with
    | some msg_type =>
      let event_name := "ws:" ++ msg_type
      [Event.emitted event_name json]
        ++ (if emitOk event_name json then [] else [Event.logEmitFailed event_name])
        ++ [Event.emitted "ws:message" json]
        ++ (if emitOk "ws:message" json then [] else [Event.logEmitFailed "ws:message"])
    | none => []
  | none => [Event.logParseFailed]

/-- The read loop of `handle_connection` (`while let Some(msg) = read.next()`):
text frames are handled by `handleText`, a close frame or a transport error
breaks the loop, any other frame kind is ignored.  The trailing
`logConnectionEnded` is the `println!` after the loop. -/
def streamLoop (parse : String → Option Json) (emitOk : String → Json → Bool) :
    List (Except String Frame) → List Event
  | [] => [Event.logConnectionEnded]
  | .error _ :: _ => [Event.logWsError, Event.logConnectionEnded]
  | .ok (.text s) :: rest => handleText parse emitOk s ++ streamLoop parse emitOk rest
  | .ok .close :: _ => [Event.logClosedByPeer, Event.logConnectionEnded]
  | .ok (.binary _) :: rest => streamLoop parse emitOk rest
  | .ok .ping :: rest => streamLoop parse emitOk rest
  | .ok .pong :: rest => streamLoop parse emitOk rest

/-- The environment of one connection: whether `accept_async` succeeds,
whether the initial `write.send` succeeds, the clock reading
(`chrono::Utc::now().timestamp_millis()`) at send time, and the received
frames (a transport error appearing as `Except.error`). -/
structure ConnInput where
  handshakeOk : Bool
  sendOk : Bool
  now : Int
  frames : List (Except String Frame)
deriving Repr

/-- `handle_connection` : on handshake failure, log and return; otherwise
log the new connection, send the handshake greeting (logging and returning
if the send fails), then run the read loop. -/
def handle_connection (version : String) (parse : String → Option Json)
    (emitOk : String → Json → Bool) (inp : ConnInput) : List Event :=
  if inp.handshakeOk then
    if inp.sendOk then
      Event.logNewConnection :: Event.sent (connected_msg version inp.now)
        :: streamLoop parse emitOk inp.frames
    else
      [Event.logNewConnection, Event.logSendFailed]
  else
    [Event.logHandshakeFailed]

/-- `WS_PORT` constant of `ws_server.rs`. -/
def WS_PORT : Nat := 9876

/-- The bind address `format!("127.0.0.1:{}", WS_PORT)`. -/
def bindAddr : String := "127.0.0.1:" ++ toString WS_PORT

/-- Observable events of the listener (`start_server`). -/
inductive ServerEvent where
  | logBindFailed : ServerEvent
  | logListening : ServerEvent
  | spawned : ServerEvent
deriving Repr, DecidableEq

/-- The accept loop `while let Ok((stream, addr)) = listener.accept()`:
each successful accept spawns a handler; the first accept error ends the
loop with no log line. -/
def acceptLoop : List (Except String Unit) → List ServerEvent
  | [] => []
  | .error _ :: _ => []
  | .ok _ :: rest => ServerEvent.spawned :: acceptLoop rest

/-- `start_server` : on bind failure log and return; on success log the
listening line and run the accept loop. -/
def start_server (bindOk : Bool) (accepts : List (Except String Unit)) :
    List ServerEvent :=
  if bindOk then ServerEvent.logListening :: acceptLoop accepts
  else [ServerEvent.logBindFailed]

/-- `AppState` of `main.rs`. -/
structure AppState where
  connected_clients : Nat
deriving Repr, DecidableEq

/-- The `get_connection_count` Tauri command of `main.rs`: it ignores the
state and returns the literal `0`. -/
def get_connection_count (_state : AppState) : Nat := 0

/-! ### Helper lemmas -/

theorem emittedOf_append (a b : List Event) :
    emittedOf (a ++ b) = emittedOf a ++ emittedOf b := by
  simp [emittedOf]

theorem sentOf_append (a b : List Event) :
    sentOf (a ++ b) = sentOf a ++ sentOf b := by
  simp [sentOf]

theorem handleText_emitted (parse : String → Option Json) (emitOk : String → Json → Bool)
    (s T : String) (j : Json) (hp : parse s = some j)
    (ht : (j.get "type").bind Json.as_str = some T) :
    emittedOf (handleText parse emitOk s) = [("ws:" ++ T, j), ("ws:message", j)] := by
  simp only [handleText, hp, ht]
  split_ifs <;> simp [emittedOf]

theorem handleText_sentOf (parse : String → Option Json) (emitOk : String → Json → Bool)
    (s : String) : sentOf (handleText parse emitOk s) = [] := by
  cases hp : parse s with
  | none => simp [handleText, hp, sentOf]
  | some j =>
    cases ht : (j.get "type").bind Json.as_str with
    | none => simp [handleText, hp, ht, sentOf]
    | some T =>
      simp only [handleText, hp, ht]
      split_ifs <;> simp [sentOf]

theorem streamLoop_sentOf (parse : String → Option Json) (emitOk : String → Json → Bool)
    (fs : List (Except String Frame)) : sentOf (streamLoop parse emitOk fs) = [] := by
  induction fs with
  | nil => simp [streamLoop, sentOf]
  | cons f rest ih =>
    cases f with
    | error e => simp [streamLoop, sentOf]
    | ok fr =>
      cases fr with
      | text s => simp [streamLoop, sentOf_append, handleText_sentOf, ih]
      | binary b => simp [streamLoop, ih]
      | close => simp [streamLoop, sentOf]
      | ping => simp [streamLoop, ih]
      | pong => simp [streamLoop, ih]

/-! ### Claims -/

/-- C1: for every text frame whose payload parses as JSON containing a
string `type` field `T`, the handler invokes the publisher exactly twice —
first on `"ws:" ++ T`, then on the catch-all `"ws:message"` — both with the
identical decoded payload; this dispatch list is the same for every
publisher-outcome function, so a failure of the first dispatch never
prevents the second, and a failed first dispatch is logged. -/
theorem C1_dual_dispatch (parse : String → Option Json) (emitOk : String → Json → Bool)
    (s T : String) (j : Json) (hp : parse s = some j)
    (ht : (j.get "type").bind Json.as_str = some T) :
    emittedOf (handleText parse emitOk s) = [("ws:" ++ T, j), ("ws:message", j)] ∧
    (emitOk ("ws:" ++ T) j = false →
      Event.logEmitFailed ("ws:" ++ T) ∈ handleText parse emitOk s) := by
  refine ⟨handleText_emitted parse emitOk s T j hp ht, fun hfail => ?_⟩
  simp [handleText, hp, ht, hfail]

/-- Witness for C1 at a concrete message with `type = "status"` and a
publisher that always fails. -/
theorem C1_dual_dispatch_witness :
    emittedOf (handleText
        (fun _ => some (Json.obj [("type", Json.str "status"), ("ok", Json.bool true)]))
        (fun _ _ => false) "m")
      = [("ws:status", Json.obj [("type", Json.str "status"), ("ok", Json.bool true)]),
         ("ws:message", Json.obj [("type", Json.str "status"), ("ok", Json.bool true)])] ∧
    (false = false →
      Event.logEmitFailed "ws:status" ∈ handleText
        (fun _ => some (Json.obj [("type", Json.str "status"), ("ok", Json.bool true)]))
        (fun _ _ => false) "m") :=
  C1_dual_dispatch
    (fun _ => some (Json.obj [("type", Json.str "status"), ("ok", Json.bool true)]))
    (fun _ _ => false) "m" "status"
    (Json.obj [("type", Json.str "status"), ("ok", Json.bool true)]) rfl rfl

/-- C2 counterexample: the claim that every dispatched message carries a
NON-EMPTY string `type` is false — the payload `{"type": ""}` is dispatched
(to `"ws:"` and `"ws:message"`) although its `type` is the empty string. -/
theorem C2_nonempty_type_counterexample :
    ¬ (∀ (parse : String → Option Json) (emitOk : String → Json → Bool) (s t : String) (j : Json),
        (t, j) ∈ emittedOf (handleText parse emitOk s) →
        ∃ ty, (j.get "type").bind Json.as_str = some ty ∧ ty ≠ "") := by
  intro h
  rcases h (fun _ => some (Json.obj [("type", Json.str "")])) (fun _ _ => true) "m" "ws:"
      (Json.obj [("type", Json.str "")]) (List.Mem.head _) with ⟨ty, hty, hne⟩
  have h2 : (some "" : Option String) = some ty := hty
  exact hne (Option.some.inj h2).symm

/-- C2 (amended): every message dispatched to the publisher carries a
string `type` field (possibly empty); any decoded message whose `type` is
absent or not a string is dropped without dispatch and without any event. -/
theorem C2_type_is_string (parse : String → Option Json) (emitOk : String → Json → Bool)
    (s : String) :
    (∀ t j, (t, j) ∈ emittedOf (handleText parse emitOk s) →
      ∃ ty, (j.get "type").bind Json.as_str = some ty) ∧
    (∀ j, parse s = some j → (j.get "type").bind Json.as_str = none →
      handleText parse emitOk s = []) := by
  constructor
  · intro t j hmem
    cases hp : parse s with
    | none => simp [handleText, hp, emittedOf] at hmem
    | some j0 =>
      cases ht : (j0.get "type").bind Json.as_str with
      | none => simp [handleText, hp, ht, emittedOf] at hmem
      | some T =>
        rw [handleText_emitted parse emitOk s T j0 hp ht] at hmem
        simp only [List.mem_cons, List.not_mem_nil, or_false, Prod.mk.injEq] at hmem
        rcases hmem with ⟨-, rfl⟩ | ⟨-, rfl⟩ <;> exact ⟨T, ht⟩
  · intro j hp ht
    simp [handleText, hp, ht]

/-- Witness for C2 (amended) at a concrete dispatched message. -/
theorem C2_type_is_string_witness :
    ∃ ty, ((Json.obj [("type", Json.str "a")]).get "type").bind Json.as_str = some ty :=
  (C2_type_is_string (fun _ => some (Json.obj [("type", Json.str "a")]))
    (fun _ _ => true) "m").1 "ws:a" (Json.obj [("type", Json.str "a")]) (List.Mem.head _)

/-- C3: a text frame whose payload fails to parse produces exactly one
decode-failure log line, no dispatch, and the loop goes on to process the
remaining frames unchanged. -/
theorem C3_decode_failure (parse : String → Option Json) (emitOk : String → Json → Bool)
    (s : String) (rest : List (Except String Frame)) (hp : parse s = none) :
    handleText parse emitOk s = [Event.logParseFailed] ∧
    emittedOf (handleText parse emitOk s) = [] ∧
    streamLoop parse emitOk (Except.ok (Frame.text s) :: rest)
      = Event.logParseFailed :: streamLoop parse emitOk rest := by
  refine ⟨by simp [handleText, hp], by simp [handleText, hp, emittedOf], ?_⟩
  simp [streamLoop, handleText, hp]

/-- Witness for C3 on the frame `"not-json"` with a parser that rejects it. -/
theorem C3_decode_failure_witness :
    handleText (fun _ => none) (fun _ _ => true) "not-json" = [Event.logParseFailed] ∧
    emittedOf (handleText (fun _ => none) (fun _ _ => true) "not-json") = [] ∧
    streamLoop (fun _ => none) (fun _ _ => true) [Except.ok (Frame.text "not-json")]
      = Event.logParseFailed :: streamLoop (fun _ => none) (fun _ _ => true) [] :=
  C3_decode_failure (fun _ => none) (fun _ _ => true) "not-json" [] rfl

/-- C4: a text frame that parses but has no usable string `type` (missing
field, non-string field, or a non-object top-level value) produces no
event at all — no dispatch, no error, no log line — and the loop continues
with the remaining frames unchanged. -/
theorem C4_missing_type (parse : String → Option Json) (emitOk : String → Json → Bool)
    (s : String) (j : Json) (rest : List (Except String Frame))
    (hp : parse s = some j) (ht : (j.get "type").bind Json.as_str = none) :
    handleText parse emitOk s = [] ∧
    streamLoop parse emitOk (Except.ok (Frame.text s) :: rest)
      = streamLoop parse emitOk rest := by
  have h1 : handleText parse emitOk s = [] := by simp [handleText, hp, ht]
  exact ⟨h1, by simp [streamLoop, h1]⟩

/-- Witness for C4 at a well-formed non-object payload (a JSON array). -/
theorem C4_missing_type_witness :
    handleText (fun _ => some (Json.arr [Json.num 1])) (fun _ _ => true) "[1]" = [] ∧
    streamLoop (fun _ => some (Json.arr [Json.num 1])) (fun _ _ => true)
        [Except.ok (Frame.text "[1]")]
      = streamLoop (fun _ => some (Json.arr [Json.num 1])) (fun _ _ => true) [] :=
  C4_missing_type (fun _ => some (Json.arr [Json.num 1])) (fun _ _ => true) "[1]"
    (Json.arr [Json.num 1]) [] rfl rfl

/-- C5: on every connection whose handshake and initial send succeed, the
trace starts with the new-connection log and the single sent
HandshakeMessage, before any frame of the read loop is processed; that
message is the only frame ever sent, carries `type = "connected"`, the
static server version, and the clock reading at send time as its
timestamp; and for two connections opened in sequence (clock readings
non-decreasing) the handshake timestamps are non-decreasing. -/
theorem C5_handshake_first (version : String) (parse : String → Option Json)
    (emitOk : String → Json → Bool) (inp inp2 : ConnInput)
    (h1 : inp.handshakeOk = true) (hs1 : inp.sendOk = true)
    (h2 : inp2.handshakeOk = true) (hs2 : inp2.sendOk = true)
    (hclock : inp.now ≤ inp2.now) :
    handle_connection version parse emitOk inp
      = Event.logNewConnection :: Event.sent (connected_msg version inp.now)
          :: streamLoop parse emitOk inp.frames ∧
    sentOf (handle_connection version parse emitOk inp) = [connected_msg version inp.now] ∧
    (connected_msg version inp.now).get "type" = some (Json.str "connected") ∧
    (connected_msg version inp.now).get "serverVersion" = some (Json.str version) ∧
    (connected_msg version inp.now).get "timestamp" = some (Json.num inp.now) ∧
    sentOf (handle_connection version parse emitOk inp2) = [connected_msg version inp2.now] ∧
    inp.now ≤ inp2.now := by
  have hrun : ∀ i : ConnInput, i.handshakeOk = true → i.sendOk = true →
      handle_connection version parse emitOk i
        = Event.logNewConnection :: Event.sent (connected_msg version i.now)
            :: streamLoop parse emitOk i.frames := by
    intro i hi hsi
    simp [handle_connection, hi, hsi]
  have hsent : ∀ i : ConnInput, i.handshakeOk = true → i.sendOk = true →
      sentOf (handle_connection version parse emitOk i) = [connected_msg version i.now] := by
    intro i hi hsi
    have hcons : sentOf (Event.logNewConnection :: Event.sent (connected_msg version i.now)
          :: streamLoop parse emitOk i.frames)
        = connected_msg version i.now :: sentOf (streamLoop parse emitOk i.frames) := by
      simp [sentOf]
    rw [hrun i hi hsi, hcons, streamLoop_sentOf]
  exact ⟨hrun inp h1 hs1, hsent inp h1 hs1, rfl, rfl, rfl, hsent inp2 h2 hs2, hclock⟩

/-- Witness for C5 on two concrete sequential connections with clock
readings 100 and 200. -/
theorem C5_handshake_first_witness :
    handle_connection "1.0.0" (fun _ => none) (fun _ _ => true) ⟨true, true, 100, []⟩
      = Event.logNewConnection :: Event.sent (connected_msg "1.0.0" 100)
          :: streamLoop (fun _ => none) (fun _ _ => true) [] ∧
    sentOf (handle_connection "1.0.0" (fun _ => none) (fun _ _ => true) ⟨true, true, 100, []⟩)
      = [connected_msg "1.0.0" 100] ∧
    (connected_msg "1.0.0" 100).get "type" = some (Json.str "connected") ∧
    (connected_msg "1.0.0" 100).get "serverVersion" = some (Json.str "1.0.0") ∧
    (connected_msg "1.0.0" 100).get "timestamp" = some (Json.num 100) ∧
    sentOf (handle_connection "1.0.0" (fun _ => none) (fun _ _ => true) ⟨true, true, 200, []⟩)
      = [connected_msg "1.0.0" 200] ∧
    (100 : Int) ≤ 200 :=
  C5_handshake_first "1.0.0" (fun _ => none) (fun _ _ => true)
    ⟨true, true, 100, []⟩ ⟨true, true, 200, []⟩ rfl rfl rfl rfl (by decide)

/-- C6: when the handshake succeeds but sending the HandshakeMessage
fails, the trace is exactly the new-connection log followed by the
send-failure log: no dispatch ever occurs, nothing is sent, and the trace
does not depend on the frames the peer would have delivered. -/
theorem C6_send_failure (version : String) (parse : String → Option Json)
    (emitOk : String → Json → Bool) (inp : ConnInput)
    (h : inp.handshakeOk = true) (hs : inp.sendOk = false) :
    handle_connection version parse emitOk inp
      = [Event.logNewConnection, Event.logSendFailed] ∧
    emittedOf (handle_connection version parse emitOk inp) = [] ∧
    sentOf (handle_connection version parse emitOk inp) = [] ∧
    (∀ frames2, handle_connection version parse emitOk ⟨inp.handshakeOk, inp.sendOk, inp.now, frames2⟩
      = [Event.logNewConnection, Event.logSendFailed]) := by
  have h1 : handle_connection version parse emitOk inp
      = [Event.logNewConnection, Event.logSendFailed] := by
    simp [handle_connection, h, hs]
  refine ⟨h1, by rw [h1]; rfl, by rw [h1]; rfl, fun frames2 => ?_⟩
  simp [handle_connection, h, hs]

/-- Witness for C6 on a concrete connection whose initial send fails even
though frames were queued. -/
theorem C6_send_failure_witness :
    handle_connection "1.0.0" (fun _ => none) (fun _ _ => true)
        ⟨true, false, 100, [Except.ok (Frame.text "x")]⟩
      = [Event.logNewConnection, Event.logSendFailed] ∧
    emittedOf (handle_connection "1.0.0" (fun _ => none) (fun _ _ => true)
        ⟨true, false, 100, [Except.ok (Frame.text "x")]⟩) = [] ∧
    sentOf (handle_connection "1.0.0" (fun _ => none) (fun _ _ => true)
        ⟨true, false, 100, [Except.ok (Frame.text "x")]⟩) = [] ∧
    (∀ frames2, handle_connection "1.0.0" (fun _ => none) (fun _ _ => true)
        ⟨true, false, 100, frames2⟩
      = [Event.logNewConnection, Event.logSendFailed]) :=
  C6_send_failure "1.0.0" (fun _ => none) (fun _ _ => true)
    ⟨true, false, 100, [Except.ok (Frame.text "x")]⟩ rfl rfl

/-- C7: a received frame that is neither a text frame nor a close frame
(binary, ping, pong) contributes no event — no decode, no dispatch — and
the loop continues on the remaining frames unchanged. -/
theorem C7_ignored_frames (parse : String → Option Json) (emitOk : String → Json → Bool)
    (f : Frame) (rest : List (Except String Frame))
    (htext : ∀ s, f ≠ Frame.text s) (hclose : f ≠ Frame.close) :
    streamLoop parse emitOk (Except.ok f :: rest) = streamLoop parse emitOk rest := by
  cases f with
  | text s => exact absurd rfl (htext s)
  | close => exact absurd rfl hclose
  | binary b => simp [streamLoop]
  | ping => simp [streamLoop]
  | pong => simp [streamLoop]

/-- Witness for C7: a binary frame is ignored even under a parser that
would accept its bytes as a valid typed message. -/
theorem C7_ignored_frames_witness :
    streamLoop (fun _ => some (Json.obj [("type", Json.str "status")])) (fun _ _ => true)
        [Except.ok (Frame.binary [123]), Except.ok (Frame.text "m")]
      = streamLoop (fun _ => some (Json.obj [("type", Json.str "status")])) (fun _ _ => true)
        [Except.ok (Frame.text "m")] :=
  C7_ignored_frames (fun _ => some (Json.obj [("type", Json.str "status")])) (fun _ _ => true)
    (Frame.binary [123]) [Except.ok (Frame.text "m")]
    (fun _ h => Frame.noConfusion h) (fun h => Frame.noConfusion h)

/-- C8: on bind failure the listener logs the bind error and returns with
no connection ever accepted; the bind address is the fixed
`"127.0.0.1:9876"`; and an accept error ends the accept loop with no log
line, so exactly the connections accepted before the error are spawned and
none after. -/
theorem C8_bind_and_accept_errors (n : Nat) (e : String)
    (rest accepts : List (Except String Unit)) :
    start_server false accepts = [ServerEvent.logBindFailed] ∧
    ServerEvent.spawned ∉ start_server false accepts ∧
    bindAddr = "127.0.0.1:9876" ∧
    acceptLoop (List.replicate n (Except.ok ()) ++ Except.error e :: rest)
      = List.replicate n ServerEvent.spawned ∧
    ServerEvent.logBindFailed ∉
      acceptLoop (List.replicate n (Except.ok ()) ++ Except.error e :: rest) := by
  have hloop : acceptLoop (List.replicate n (Except.ok ()) ++ Except.error e :: rest)
      = List.replicate n ServerEvent.spawned := by
    induction n with
    | zero => simp [acceptLoop]
    | succ k ih => simp [List.replicate_succ, acceptLoop, ih]
  refine ⟨rfl, by simp [start_server], rfl, hloop, ?_⟩
  rw [hloop]
  simp [List.mem_replicate]

/-- C9: the `get_connection_count` command returns zero on every state, no
matter how many clients the state records. -/
theorem C9_connection_count_stub (s : AppState) : get_connection_count s = 0 := rfl

/-- C10: for a message whose `type` is the string `"message"`, the derived
specific topic `"ws:" ++ "message"` coincides with the catch-all topic
`"ws:message"`, so both dispatches go to the catch-all topic — its
subscribers receive the payload twice and no other topic receives it. -/
theorem C10_catchall_collision (parse : String → Option Json) (emitOk : String → Json → Bool)
    (s : String) (j : Json) (hp : parse s = some j)
    (ht : (j.get "type").bind Json.as_str = some "message") :
    ("ws:" ++ "message" : String) = "ws:message" ∧
    emittedOf (handleText parse emitOk s) = [("ws:message", j), ("ws:message", j)] ∧
    (∀ t p, (t, p) ∈ emittedOf (handleText parse emitOk s) → t = "ws:message") := by
  have he := handleText_emitted parse emitOk s "message" j hp ht
  have hstr : ("ws:" ++ "message" : String) = "ws:message" := rfl
  refine ⟨rfl, by rw [he, hstr], fun t p hmem => ?_⟩
  rw [he] at hmem
  simp only [List.mem_cons, List.not_mem_nil, or_false, Prod.mk.injEq] at hmem
  rcases hmem with ⟨h1, -⟩ | ⟨h1, -⟩
  · exact h1.trans rfl
  · exact h1

/-- Witness for C10 at a concrete message with `type = "message"`. -/
theorem C10_catchall_collision_witness :
    ("ws:" ++ "message" : String) = "ws:message" ∧
    emittedOf (handleText (fun _ => some (Json.obj [("type", Json.str "message")]))
        (fun _ _ => true) "m")
      = [("ws:message", Json.obj [("type", Json.str "message")]),
         ("ws:message", Json.obj [("type", Json.str "message")])] ∧
    (∀ t p, (t, p) ∈ emittedOf (handleText
        (fun _ => some (Json.obj [("type", Json.str "message")])) (fun _ _ => true) "m") →
      t = "ws:message") :=
  C10_catchall_collision (fun _ => some (Json.obj [("type", Json.str "message")]))
    (fun _ _ => true) "m" (Json.obj [("type", Json.str "message")]) rfl rfl
